import Mathlib

/-!
Verification of the `password_argon2` Terraform resource (internal/provider).

The repository contains two variants of the resource file:
- Variant A (no `salt` attribute): model `Argon2ResourceModel` with fields
  password, key_len, thread, memory, iterations, hash, id; `generatePassword`
  builds a hasher from `argon2.ProfileRFC9106Recommended` and applies the
  operator-supplied options.
- Variant B (explicit `salt` attribute): model with the extra fields salt and
  time; `generatePassword` calls `argon2.New(argon2.WithProfileRFC9106Recommended())`
  and hashes only `data.Password` (salt and cost-parameter fields are not read).

Embedding conventions:
- `types.Int32` fields are `Int` (the plan always carries concrete values,
  defaults having been resolved by the framework before `Plan.Get`).
- `types.String` fields are `String`; the computed `hash` attribute is
  `Option Digest`, where `Digest` is a symbolic model of the go-crypt
  `algorithm.Digest`: the external Argon2 primitive is modelled by recording
  the inputs (password, salt, parameters) in the digest, and verification
  (`crypt.CheckPassword`) re-derives the key from the candidate password with
  the digest's own salt and parameters, which under the symbolic model
  compares passwords.  The encoded digest string produced by `digest.String()`
  is self-describing and injective on these fields, so string equality of
  stored hashes corresponds to structural equality of `Digest` values.
- The random salt drawn by the primitive inside `hasher.Hash` is passed in
  explicitly (`randSalt`), and an external primitive failure (for example
  exhaustion of the random source) is the explicit flag `primFail`.
- `diag.Diagnostics` is a Go slice passed to `generatePassword` BY VALUE:
  `AddError` appends to the callee's local copy of the slice header, which the
  caller never observes.  The embedding makes this explicit: the generator
  returns its local diagnostics list, and the lifecycle callers discard it,
  exactly as the Go callers do.
- The parameter domain of the external go-crypt Argon2 options (positive
  iterations, key length and parallelism; memory at least the minimum and,
  at hash time, at least 8 x parallelism) follows the domain constraints the
  spec states for the primitive; the exact thresholds only matter at the
  claim inputs (zero values), which every faithful choice rejects.
-/

/-- A structured diagnostic: (summary, detail) as produced by `diag.AddError`. -/
structure Diag where
  summary : String
  detail : String
deriving DecidableEq, Repr

/-- Symbolic model of a go-crypt Argon2 digest: the encoded string embeds the
variant, version, cost parameters and salt, and the derived key, which the
symbolic model represents by the password it was derived from. -/
structure Digest where
  variant : String
  version : Nat
  memory : Nat
  iterations : Nat
  parallelism : Nat
  keyLen : Nat
  salt : String
  password : String
deriving DecidableEq, Repr

/-- Verification of a password against a digest (`crypt.CheckPassword`):
re-derive the key from the candidate password with the digest's salt and
parameters and compare; symbolically, compare passwords. -/
def Digest.verifies (d : Digest) (secret : String) : Bool :=
  d.password == secret

/-- Variant A resource model (`Argon2ResourceModel` without a salt field). -/
structure ModelA where
  password : String
  keyLen : Int
  thread : Int
  memory : Int
  iterations : Int
  hash : Option Digest
  id : String
deriving DecidableEq, Repr

/-- Variant B resource model (`Argon2ResourceModel` with salt and time). -/
structure ModelB where
  salt : String
  password : String
  keyLen : Int
  time : Int
  thread : Int
  memory : Int
  iterations : Int
  hash : Option Digest
  id : String
deriving DecidableEq, Repr

/-- Mutable hasher settings of `argon2.Hasher`. -/
structure Argon2Settings where
  variant : String
  iterations : Nat
  keyLen : Nat
  memory : Nat
  parallelism : Nat
deriving DecidableEq, Repr

/-- The `argon2.ProfileRFC9106Recommended` defaults (go-crypt): Argon2id,
t = 1, m = 2 GiB in KiB, p = 4, key length 32. -/
def profileRFC9106 : Argon2Settings :=
  { variant := "argon2id", iterations := 1, keyLen := 32
    memory := 2097152, parallelism := 4 }

/-- The Go conversion `uint32(x)` applied to an `int32` value: reduce modulo
2^32 into the non-negative range. -/
def uint32OfInt32 (x : Int) : Nat :=
  (x % 4294967296).toNat

/-- The `hasher.WithOptions(...)` call of variant A, in source order:
WithIterations, WithKeyLength, WithMemoryInKiB(uint32(memory)),
WithVariant(VariantID), WithParallelism.  Each option validates its argument
before mutating the hasher; the loop stops at the first failing option and
returns its error, leaving the settings as mutated so far. -/
def withOptionsA (s : Argon2Settings) (d : ModelA) : Argon2Settings × Option String :=
  if d.iterations < 1 then (s, some "iterations out of range") else
  let s1 := { s with iterations := d.iterations.toNat }
  if d.keyLen < 1 then (s1, some "key length out of range") else
  let s2 := { s1 with keyLen := d.keyLen.toNat }
  let m := uint32OfInt32 d.memory
  if m < 8 then (s2, some "memory out of range") else
  let s3 := { s2 with memory := m }
  let s4 := { s3 with variant := "argon2id" }
  if d.thread < 1 then (s4, some "parallelism out of range") else
  ({ s4 with parallelism := d.thread.toNat }, none)

/-- The hashing step `hasher.Hash(password)`: validate the settings (memory
must support the parallelism), draw a random salt (passed in explicitly as
`randSalt`), and derive the key; `primFail` models a failure of the external
primitive (for example the secure random source). -/
def computeHash (s : Argon2Settings) (password randSalt : String)
    (primFail : Bool) : Except String Digest :=
  if s.memory < 8 * s.parallelism then .error "argon2 validation error"
  else if primFail then .error "computation failed"
  else .ok { variant := s.variant, version := 19, memory := s.memory
             iterations := s.iterations, parallelism := s.parallelism
             keyLen := s.keyLen, salt := randSalt, password := password }

/-- Result of a `generatePassword` call: the digest (nil on failure), the
callee's local diagnostics slice after its appends, and the number of times
the CPU-bound hashing primitive was invoked. -/
structure GenResult where
  digest : Option Digest
  diags : List Diag
  hashCalls : Nat
deriving DecidableEq, Repr

/-- Variant A `generatePassword`: build the hasher from the recommended
profile, apply the operator options; on an option error, add an
initialization-error diagnostic to the (local) diagnostics and fall through;
then call `hasher.Hash` unconditionally. -/
def generatePasswordA (diags : List Diag) (data : ModelA) (randSalt : String)
    (primFail : Bool) : GenResult :=
  let so := withOptionsA profileRFC9106 data
  let diags1 :=
    match so.2 with
    | some e =>
        diags ++ [{ summary := "Argon 2 initialization error"
                    detail := "Unable to generate hash, got error " ++ e }]
    | none => diags
  match computeHash so.1 data.password randSalt primFail with
  | .error e =>
      { digest := none
        diags := diags1 ++ [{ summary := "Argon 2 error"
                              detail := "Unable to hash Argon2, got error: " ++ e }]
        hashCalls := 1 }
  | .ok dg => { digest := some dg, diags := diags1, hashCalls := 1 }

/-- Variant B `generatePassword`: `argon2.New(argon2.WithProfileRFC9106Recommended())`
(which cannot fail: the profile option is always valid) followed by
`hasher.Hash(data.Password.ValueString())`.  Neither `data.Salt` nor any of
the cost-parameter fields is read. -/
def generatePasswordB (diags : List Diag) (data : ModelB) (randSalt : String)
    (primFail : Bool) : GenResult :=
  match computeHash profileRFC9106 data.password randSalt primFail with
  | .error e =>
      { digest := none
        diags := diags ++ [{ summary := "Argon 2 error"
                             detail := "Unable to hash Argon2, got error: " ++ e }]
        hashCalls := 1 }
  | .ok dg => { digest := some dg, diags := diags, hashCalls := 1 }

/-- Result of a lifecycle verb: the record written to state by
`resp.State.Set` (`none` when the handler returned before writing, in which
case the framework keeps the prior state authoritative), the diagnostics of
the response, and the number of hashing-primitive invocations. -/
structure OpResult (M : Type) where
  written : Option M
  diags : List Diag
  engineCalls : Nat
deriving DecidableEq, Repr

/-- The persisted state after an update: the written record, or the prior
record when the handler aborted without writing. -/
def persisted {M : Type} (prior : M) (r : OpResult M) : M :=
  r.written.getD prior

/-- Variant A `Create`: read the plan, hardcode `id := "argon2-id"`, generate
the password hash (the diagnostics slice is passed by value, so the callee's
appends are lost), abort on nil digest, otherwise set `hash` and write. -/
def CreateA (plan : ModelA) (randSalt : String) (primFail : Bool) : OpResult ModelA :=
  let diags : List Diag := []
  let data := { plan with id := "argon2-id" }
  let g := generatePasswordA diags data randSalt primFail
  match g.digest with
  | none => { written := none, diags := diags, engineCalls := g.hashCalls }
  | some dg =>
      { written := some { data with hash := some dg }
        diags := diags, engineCalls := g.hashCalls }

/-- Variant A `Read`: read the prior state and write it back unchanged. -/
def ReadA (oldData : ModelA) : OpResult ModelA :=
  { written := some oldData, diags := [], engineCalls := 0 }

/-- Variant A `Update`: if the prior password equals the planned password,
copy the prior hash forward; otherwise generate a new hash (aborting on nil
digest before any state write); then write the plan data. -/
def UpdateA (oldData plan : ModelA) (randSalt : String) (primFail : Bool) :
    OpResult ModelA :=
  if oldData.password == plan.password then
    { written := some { plan with hash := oldData.hash }
      diags := [], engineCalls := 0 }
  else
    let g := generatePasswordA [] plan randSalt primFail
    match g.digest with
    | none => { written := none, diags := [], engineCalls := g.hashCalls }
    | some dg =>
        { written := some { plan with hash := some dg }
          diags := [], engineCalls := g.hashCalls }

/-- Variant B `Create`. -/
def CreateB (plan : ModelB) (randSalt : String) (primFail : Bool) : OpResult ModelB :=
  let diags : List Diag := []
  let data := { plan with id := "argon2-id" }
  let g := generatePasswordB diags data randSalt primFail
  match g.digest with
  | none => { written := none, diags := diags, engineCalls := g.hashCalls }
  | some dg =>
      { written := some { data with hash := some dg }
        diags := diags, engineCalls := g.hashCalls }

/-- Variant B `Read`: read the prior state and write it back unchanged. -/
def ReadB (oldData : ModelB) : OpResult ModelB :=
  { written := some oldData, diags := [], engineCalls := 0 }

/-- Variant B `Update`: identical decision rule to variant A — only the
password is compared; `salt` takes no part in the change detection. -/
def UpdateB (oldData plan : ModelB) (randSalt : String) (primFail : Bool) :
    OpResult ModelB :=
  if oldData.password == plan.password then
    { written := some { plan with hash := oldData.hash }
      diags := [], engineCalls := 0 }
  else
    let g := generatePasswordB [] plan randSalt primFail
    match g.digest with
    | none => { written := none, diags := [], engineCalls := g.hashCalls }
    | some dg =>
        { written := some { plan with hash := some dg }
          diags := [], engineCalls := g.hashCalls }

/-- A lifecycle event after creation: a refresh, or an update with a planned
configuration, a fresh random salt and a primitive-failure flag. -/
inductive OpA where
  | read : OpA
  | update : ModelA → String → Bool → OpA
deriving Repr

/-- One lifecycle step on the persisted variant A state.  The `id` attribute
is computed with the `UseStateForUnknown` plan modifier, so the framework
fills the planned `id` from the prior state before invoking `Update`; a
handler that aborts without writing leaves the prior state authoritative. -/
def stepA (s : ModelA) (op : OpA) : ModelA :=
  match op with
  | .read => persisted s (ReadA s)
  | .update plan randSalt primFail =>
      persisted s (UpdateA s { plan with id := s.id } randSalt primFail)

/-- Execute a sequence of lifecycle events on the persisted state. -/
def execA (s : ModelA) (ops : List OpA) : ModelA :=
  ops.foldl stepA s

/-! ## Concrete records used to instantiate the theorems -/

/-- A digest previously persisted for the password "example-password". -/
def c1DigA : Digest :=
  { variant := "argon2id", version := 19, memory := 65536, iterations := 3
    parallelism := 4, keyLen := 32, salt := "c1-old-salt"
    password := "example-password" }

/-- Prior variant A state for the no-op-update scenario. -/
def c1PriorA : ModelA :=
  { password := "example-password", keyLen := 32, thread := 4, memory := 65536
    iterations := 3, hash := some c1DigA, id := "argon2-id" }

/-- Plan with the same password but every computed cost attribute changed. -/
def c1PlanA : ModelA :=
  { c1PriorA with
      keyLen := 64, thread := 8, memory := 131072, iterations := 7, hash := none }

/-- Prior variant B state for the no-op-update scenario. -/
def c1PriorB : ModelB :=
  { salt := "example-salt", password := "example-password", keyLen := 32
    time := 1, thread := 4, memory := 65536, iterations := 3
    hash := some c1DigA, id := "argon2-id" }

/-- Variant B plan with the same password and salt, other attributes changed. -/
def c1PlanB : ModelB :=
  { c1PriorB with
      keyLen := 64, time := 2, thread := 8, memory := 131072, iterations := 7, hash := none }

/-- A digest previously persisted for "example-password" (salt-change scenario). -/
def c2DigB : Digest :=
  { variant := "argon2id", version := 19, memory := 2097152, iterations := 1
    parallelism := 4, keyLen := 32, salt := "c2-old-salt"
    password := "example-password" }

/-- Prior variant B state with salt "example-salt". -/
def c2PriorB : ModelB :=
  { salt := "example-salt", password := "example-password", keyLen := 32
    time := 1, thread := 4, memory := 65536, iterations := 3
    hash := some c2DigB, id := "argon2-id" }

/-- Plan changing only the salt, password unchanged. -/
def c2PlanB : ModelB :=
  { c2PriorB with salt := "new-salt", hash := none }

/-- Digest persisted for the prior variant A record in the rehash scenario. -/
def c3DigA0 : Digest :=
  { variant := "argon2id", version := 19, memory := 65536, iterations := 3
    parallelism := 4, keyLen := 32, salt := "c3-old-salt-a"
    password := "example-password" }

/-- Prior variant A state in the rehash scenario. -/
def c3PriorA : ModelA :=
  { password := "example-password", keyLen := 32, thread := 4, memory := 65536
    iterations := 3, hash := some c3DigA0, id := "argon2-id" }

/-- Variant A plan changing the password. -/
def c3PlanA : ModelA :=
  { c3PriorA with password := "new-password", hash := none }

/-- The digest the rehashing update computes for `c3PlanA`. -/
def c3DigA1 : Digest :=
  { variant := "argon2id", version := 19, memory := 65536, iterations := 3
    parallelism := 4, keyLen := 32, salt := "c3-fresh-a"
    password := "new-password" }

/-- The record the rehashing update writes for `c3PlanA`. -/
def c3ResA : ModelA :=
  { c3PlanA with hash := some c3DigA1 }

/-- Digest persisted for the prior variant B record in the rehash scenario. -/
def c3DigB0 : Digest :=
  { variant := "argon2id", version := 19, memory := 2097152, iterations := 1
    parallelism := 4, keyLen := 32, salt := "c3-old-salt-b"
    password := "example-password" }

/-- Prior variant B state in the rehash scenario. -/
def c3PriorB : ModelB :=
  { salt := "example-salt", password := "example-password", keyLen := 32
    time := 1, thread := 4, memory := 65536, iterations := 3
    hash := some c3DigB0, id := "argon2-id" }

/-- Variant B plan changing the password. -/
def c3PlanB : ModelB :=
  { c3PriorB with password := "new-password", hash := none }

/-- The digest the rehashing update computes for `c3PlanB`. -/
def c3DigB1 : Digest :=
  { variant := "argon2id", version := 19, memory := 2097152, iterations := 1
    parallelism := 4, keyLen := 32, salt := "c3-fresh-b"
    password := "new-password" }

/-- The record the rehashing update writes for `c3PlanB`. -/
def c3ResB : ModelB :=
  { c3PlanB with hash := some c3DigB1 }

/-- A plan used for the engine-failure scenarios. -/
def c4PlanA : ModelA :=
  { password := "example-password", keyLen := 32, thread := 4, memory := 65536
    iterations := 3, hash := none, id := "" }

/-- A prior variant A record whose password differs from `c4PlanA`. -/
def c4PriorA : ModelA :=
  { password := "other-password", keyLen := 32, thread := 4, memory := 65536
    iterations := 3, hash := some c1DigA, id := "argon2-id" }

/-- A variant B plan used for the engine-failure scenarios. -/
def c4PlanB : ModelB :=
  { salt := "example-salt", password := "example-password", keyLen := 32
    time := 1, thread := 4, memory := 65536, iterations := 3
    hash := none, id := "" }

/-- A prior variant B record whose password differs from `c4PlanB`. -/
def c4PriorB : ModelB :=
  { c4PlanB with
      password := "other-password", hash := some c2DigB, id := "argon2-id" }

/-- The plan of the created record in the identifier-immutability scenario. -/
def c8Plan : ModelA :=
  { password := "example-password", keyLen := 32, thread := 4, memory := 65536
    iterations := 3, hash := none, id := "" }

/-- The digest `Create` computes for `c8Plan` with random salt "c8-salt". -/
def c8Dig : Digest :=
  { variant := "argon2id", version := 19, memory := 65536, iterations := 3
    parallelism := 4, keyLen := 32, salt := "c8-salt"
    password := "example-password" }

/-- The record `Create` writes for `c8Plan` with random salt "c8-salt". -/
def c8R0 : ModelA :=
  { c8Plan with id := "argon2-id", hash := some c8Dig }

/-- A lifecycle sequence: refresh, a password-changing update, a no-op update
and a refresh. -/
def c8Ops : List OpA :=
  [OpA.read,
   OpA.update { c8Plan with password := "new-password" } "c8-salt-2" false,
   OpA.update { c8Plan with password := "new-password", iterations := 9 }
     "c8-salt-3" false,
   OpA.read]

/-- The digest the variant B Create computes for `c4PlanB` with random salt
"c10-s2". -/
def c10DigB : Digest :=
  { variant := "argon2id", version := 19, memory := 2097152, iterations := 1
    parallelism := 4, keyLen := 32, salt := "c10-s2"
    password := "example-password" }

/-- The record the variant B Create writes for `c4PlanB`. -/
def c10RB : ModelB :=
  { c4PlanB with id := "argon2-id", hash := some c10DigB }

/-! ## Helper lemmas -/

theorem computeHash_ok_password (s : Argon2Settings) (p rs : String) (pf : Bool)
    (dg : Digest) (h : computeHash s p rs pf = .ok dg) : dg.password = p := by
  unfold computeHash at h
  split at h
  · exact absurd h (by simp)
  · split at h
    · exact absurd h (by simp)
    · cases h
      rfl

theorem genA_digest_password (ds : List Diag) (data : ModelA) (rs : String)
    (pf : Bool) (dg : Digest)
    (h : (generatePasswordA ds data rs pf).digest = some dg) :
    dg.password = data.password := by
  cases hc : computeHash (withOptionsA profileRFC9106 data).1 data.password rs pf with
  | error e => simp [generatePasswordA, hc] at h
  | ok d =>
      simp [generatePasswordA, hc] at h
      rw [← h]
      exact computeHash_ok_password _ _ _ _ _ hc

theorem genB_digest_password (ds : List Diag) (data : ModelB) (rs : String)
    (pf : Bool) (dg : Digest)
    (h : (generatePasswordB ds data rs pf).digest = some dg) :
    dg.password = data.password := by
  cases hc : computeHash profileRFC9106 data.password rs pf with
  | error e => simp [generatePasswordB, hc] at h
  | ok d =>
      simp [generatePasswordB, hc] at h
      rw [← h]
      exact computeHash_ok_password _ _ _ _ _ hc

theorem CreateA_written_id (plan : ModelA) (rs : String) (pf : Bool) (r : ModelA)
    (h : (CreateA plan rs pf).written = some r) : r.id = "argon2-id" := by
  cases hg : (generatePasswordA [] { plan with id := "argon2-id" } rs pf).digest with
  | none => simp [CreateA, hg] at h
  | some dg =>
      simp [CreateA, hg] at h
      rw [← h]

theorem CreateB_written_id (plan : ModelB) (rs : String) (pf : Bool) (r : ModelB)
    (h : (CreateB plan rs pf).written = some r) : r.id = "argon2-id" := by
  cases hg : (generatePasswordB [] { plan with id := "argon2-id" } rs pf).digest with
  | none => simp [CreateB, hg] at h
  | some dg =>
      simp [CreateB, hg] at h
      rw [← h]

theorem stepA_id (s : ModelA) (op : OpA) : (stepA s op).id = s.id := by
  cases op with
  | read => rfl
  | update plan rs pf =>
      show (persisted s (UpdateA s { plan with id := s.id } rs pf)).id = s.id
      unfold UpdateA persisted
      split
      · rfl
      · cases hg : (generatePasswordA [] { plan with id := s.id } rs pf).digest <;>
          simp [hg]

theorem execA_id (ops : List OpA) : ∀ s : ModelA, (execA s ops).id = s.id := by
  induction ops with
  | nil => intro s; rfl
  | cons op rest ih =>
      intro s
      calc (execA s (op :: rest)).id = (execA (stepA s op) rest).id := rfl
        _ = (stepA s op).id := ih (stepA s op)
        _ = s.id := stepA_id s op

/-! ## Claim theorems -/

/-- C1: for every Update call where the desired password equals the prior
password (and, in the explicit-salt variant, the desired salt equals the
prior salt), the written record carries the prior hash verbatim and the
hashing engine is not invoked, whatever the other (computed) attributes are. -/
theorem upd_same_secret_copies_hash
    (priorA planA : ModelA) (rsA : String) (pfA : Bool)
    (priorB planB : ModelB) (rsB : String) (pfB : Bool)
    (hA : planA.password = priorA.password)
    (hB : planB.password = priorB.password)
    (_hBs : planB.salt = priorB.salt) :
    (UpdateA priorA planA rsA pfA).written = some { planA with hash := priorA.hash } ∧
    (UpdateA priorA planA rsA pfA).engineCalls = 0 ∧
    (UpdateB priorB planB rsB pfB).written = some { planB with hash := priorB.hash } ∧
    (UpdateB priorB planB rsB pfB).engineCalls = 0 := by
  refine ⟨?_, ?_, ?_, ?_⟩ <;> simp [UpdateA, UpdateB, hA, hB]

/-- C1 witness: a concrete no-op update in both variants, with every computed
cost attribute changed between the prior record and the plan. -/
theorem upd_same_secret_copies_hash_witness :
    (c1PlanA.password = c1PriorA.password ∧ c1PlanB.password = c1PriorB.password ∧
       c1PlanB.salt = c1PriorB.salt) ∧
    ((UpdateA c1PriorA c1PlanA "w1-salt" false).written
        = some { c1PlanA with hash := c1PriorA.hash } ∧
     (UpdateA c1PriorA c1PlanA "w1-salt" false).engineCalls = 0 ∧
     (UpdateB c1PriorB c1PlanB "w2-salt" false).written
        = some { c1PlanB with hash := c1PriorB.hash } ∧
     (UpdateB c1PriorB c1PlanB "w2-salt" false).engineCalls = 0) :=
  ⟨⟨rfl, rfl, rfl⟩,
   upd_same_secret_copies_hash c1PriorA c1PlanA "w1-salt" false
     c1PriorB c1PlanB "w2-salt" false rfl rfl rfl⟩

/-- C2 counterexample: a concrete explicit-salt Update whose desired salt
differs from the prior salt while the password is unchanged; the controller
does not invoke the hashing engine and the written hash equals the prior
hash, refuting the claim that a salt change alone triggers a rehash. -/
theorem salt_change_keeps_hash_cex :
    c2PlanB.salt ≠ c2PriorB.salt ∧
    (UpdateB c2PriorB c2PlanB "c2-fresh" false).engineCalls = 0 ∧
    (UpdateB c2PriorB c2PlanB "c2-fresh" false).written
      = some { c2PlanB with hash := c2PriorB.hash } :=
  ⟨by decide, rfl, rfl⟩

/-- C2 amended: in the explicit-salt variant, salt is NOT a secret-determining
field: for every Update whose desired password equals the prior password,
even when the desired salt differs from the prior salt, the controller does
not invoke the hashing engine and carries the prior hash forward verbatim. -/
theorem upd_salt_not_secret_determining (prior plan : ModelB) (rs : String)
    (pf : Bool) (hp : plan.password = prior.password)
    (_hs : plan.salt ≠ prior.salt) :
    (UpdateB prior plan rs pf).written = some { plan with hash := prior.hash } ∧
    (UpdateB prior plan rs pf).engineCalls = 0 := by
  constructor <;> simp [UpdateB, hp]

/-- C2 amended witness: the salt-only update scenario at concrete records. -/
theorem upd_salt_not_secret_determining_witness :
    (c2PlanB.password = c2PriorB.password ∧ c2PlanB.salt ≠ c2PriorB.salt) ∧
    ((UpdateB c2PriorB c2PlanB "c2-fresh-w" false).written
        = some { c2PlanB with hash := c2PriorB.hash } ∧
     (UpdateB c2PriorB c2PlanB "c2-fresh-w" false).engineCalls = 0) :=
  ⟨⟨rfl, by decide⟩,
   upd_salt_not_secret_determining c2PriorB c2PlanB "c2-fresh-w" false rfl
     (by decide)⟩

/-- C3: for every Update whose desired password differs from the prior
password (with the prior hash the digest of the prior password), the written
record's hash differs from the prior hash, and the new digest verifies
against the desired password but not against the prior one; both variants. -/
theorem upd_changed_secret_rehashes
    (priorA planA : ModelA) (rsA : String) (pfA : Bool) (dA0 : Digest)
    (resA : ModelA)
    (priorB planB : ModelB) (rsB : String) (pfB : Bool) (dB0 : Digest)
    (resB : ModelB)
    (hneA : planA.password ≠ priorA.password)
    (hpA : priorA.hash = some dA0)
    (hvA : dA0.verifies priorA.password = true)
    (hwA : (UpdateA priorA planA rsA pfA).written = some resA)
    (hneB : planB.password ≠ priorB.password)
    (hpB : priorB.hash = some dB0)
    (hvB : dB0.verifies priorB.password = true)
    (hwB : (UpdateB priorB planB rsB pfB).written = some resB) :
    (resA.hash ≠ priorA.hash ∧ ∃ dg, resA.hash = some dg ∧
       dg.verifies planA.password = true ∧ dg.verifies priorA.password = false) ∧
    (resB.hash ≠ priorB.hash ∧ ∃ dg, resB.hash = some dg ∧
       dg.verifies planB.password = true ∧ dg.verifies priorB.password = false) := by
  have hbA : (priorA.password == planA.password) = false := by
    simp [hneA.symm]
  have hbB : (priorB.password == planB.password) = false := by
    simp [hneB.symm]
  have hdA0 : dA0.password = priorA.password := by
    have := hvA
    simpa [Digest.verifies] using this
  have hdB0 : dB0.password = priorB.password := by
    have := hvB
    simpa [Digest.verifies] using this
  constructor
  · cases hg : (generatePasswordA [] planA rsA pfA).digest with
    | none => simp [UpdateA, hbA, hg] at hwA
    | some dg =>
        simp only [UpdateA, hbA, Bool.false_eq_true, if_false, hg] at hwA
        have hdg : dg.password = planA.password :=
          genA_digest_password [] planA rsA pfA dg hg
        have hres : resA = { planA with hash := some dg } := by
          cases hwA
          rfl
        subst hres
        refine ⟨?_, dg, rfl, ?_, ?_⟩
        · intro hcontra
          rw [hpA] at hcontra
          have : dg = dA0 := by
            simpa using hcontra
          apply hneA
          rw [← hdg, this, hdA0]
        · simp [Digest.verifies, hdg]
        · simp [Digest.verifies, hdg]
          intro hcontra
          exact hneA hcontra
  · cases hg : (generatePasswordB [] planB rsB pfB).digest with
    | none => simp [UpdateB, hbB, hg] at hwB
    | some dg =>
        simp only [UpdateB, hbB, Bool.false_eq_true, if_false, hg] at hwB
        have hdg : dg.password = planB.password :=
          genB_digest_password [] planB rsB pfB dg hg
        have hres : resB = { planB with hash := some dg } := by
          cases hwB
          rfl
        subst hres
        refine ⟨?_, dg, rfl, ?_, ?_⟩
        · intro hcontra
          rw [hpB] at hcontra
          have : dg = dB0 := by
            simpa using hcontra
          apply hneB
          rw [← hdg, this, hdB0]
        · simp [Digest.verifies, hdg]
        · simp [Digest.verifies, hdg]
          intro hcontra
          exact hneB hcontra

/-- C3 witness: a concrete password-changing update in both variants. -/
theorem upd_changed_secret_rehashes_witness :
    (c3PlanA.password ≠ c3PriorA.password ∧ c3PriorA.hash = some c3DigA0 ∧
     c3DigA0.verifies c3PriorA.password = true ∧
     (UpdateA c3PriorA c3PlanA "c3-fresh-a" false).written = some c3ResA ∧
     c3PlanB.password ≠ c3PriorB.password ∧ c3PriorB.hash = some c3DigB0 ∧
     c3DigB0.verifies c3PriorB.password = true ∧
     (UpdateB c3PriorB c3PlanB "c3-fresh-b" false).written = some c3ResB) ∧
    ((c3ResA.hash ≠ c3PriorA.hash ∧ ∃ dg, c3ResA.hash = some dg ∧
        dg.verifies c3PlanA.password = true ∧
        dg.verifies c3PriorA.password = false) ∧
     (c3ResB.hash ≠ c3PriorB.hash ∧ ∃ dg, c3ResB.hash = some dg ∧
        dg.verifies c3PlanB.password = true ∧
        dg.verifies c3PriorB.password = false)) :=
  ⟨⟨by decide, rfl, by decide, by decide, by decide, rfl, by decide, by decide⟩,
   upd_changed_secret_rehashes c3PriorA c3PlanA "c3-fresh-a" false c3DigA0 c3ResA
     c3PriorB c3PlanB "c3-fresh-b" false c3DigB0 c3ResB
     (by decide) rfl (by decide) (by decide)
     (by decide) rfl (by decide) (by decide)⟩

/-- C4: for every Create or Update call in which the hashing invocation
returns no digest, the handler returns before `resp.State.Set`: Create writes
nothing, and after an aborted Update the persisted state is still the prior
record; both variants. -/
theorem engine_failure_aborts_without_write
    (planA : ModelA) (rsA : String) (pfA : Bool)
    (priorA planUA : ModelA) (rsUA : String) (pfUA : Bool)
    (planB : ModelB) (rsB : String) (pfB : Bool)
    (priorB planUB : ModelB) (rsUB : String) (pfUB : Bool)
    (hcA : (generatePasswordA [] { planA with id := "argon2-id" } rsA pfA).digest
             = none)
    (huA1 : planUA.password ≠ priorA.password)
    (huA2 : (generatePasswordA [] planUA rsUA pfUA).digest = none)
    (hcB : (generatePasswordB [] { planB with id := "argon2-id" } rsB pfB).digest
             = none)
    (huB1 : planUB.password ≠ priorB.password)
    (huB2 : (generatePasswordB [] planUB rsUB pfUB).digest = none) :
    (CreateA planA rsA pfA).written = none ∧
    (UpdateA priorA planUA rsUA pfUA).written = none ∧
    persisted priorA (UpdateA priorA planUA rsUA pfUA) = priorA ∧
    (CreateB planB rsB pfB).written = none ∧
    (UpdateB priorB planUB rsUB pfUB).written = none ∧
    persisted priorB (UpdateB priorB planUB rsUB pfUB) = priorB := by
  have hbA : (priorA.password == planUA.password) = false := by
    simp [huA1.symm]
  have hbB : (priorB.password == planUB.password) = false := by
    simp [huB1.symm]
  refine ⟨?_, ?_, ?_, ?_, ?_, ?_⟩
  · simp [CreateA, hcA]
  · simp [UpdateA, hbA, hcA, huA2]
  · simp [persisted, UpdateA, hbA, huA2]
  · simp [CreateB, hcB]
  · simp [UpdateB, hbB, hcB, huB2]
  · simp [persisted, UpdateB, hbB, huB2]

/-- C4 witness: the hashing primitive fails (`primFail = true`) on concrete
Create and Update calls; no record is written and the prior record stays. -/
theorem engine_failure_aborts_without_write_witness :
    ((generatePasswordA [] { c4PlanA with id := "argon2-id" } "c4-s1" true).digest
        = none ∧
     c4PlanA.password ≠ c4PriorA.password ∧
     (generatePasswordA [] c4PlanA "c4-s2" true).digest = none ∧
     (generatePasswordB [] { c4PlanB with id := "argon2-id" } "c4-s3" true).digest
        = none ∧
     c4PlanB.password ≠ c4PriorB.password ∧
     (generatePasswordB [] c4PlanB "c4-s4" true).digest = none) ∧
    ((CreateA c4PlanA "c4-s1" true).written = none ∧
     (UpdateA c4PriorA c4PlanA "c4-s2" true).written = none ∧
     persisted c4PriorA (UpdateA c4PriorA c4PlanA "c4-s2" true) = c4PriorA ∧
     (CreateB c4PlanB "c4-s3" true).written = none ∧
     (UpdateB c4PriorB c4PlanB "c4-s4" true).written = none ∧
     persisted c4PriorB (UpdateB c4PriorB c4PlanB "c4-s4" true) = c4PriorB) :=
  ⟨⟨rfl, by decide, rfl, rfl, by decide, rfl⟩,
   engine_failure_aborts_without_write c4PlanA "c4-s1" true c4PriorA c4PlanA
     "c4-s2" true c4PlanB "c4-s3" true c4PriorB c4PlanB "c4-s4" true
     rfl (by decide) rfl rfl (by decide) rfl⟩

/-- C5: the hashing helper receives the diagnostics slice by value, so the
error diagnostic it adds never reaches the lifecycle response.  At the
concrete input with `iterations = 0`, `generatePassword` records an
initialization-error diagnostic in its local copy, yet the Create response
carries no diagnostic at all and still writes a record. -/
theorem gen_diags_dropped_by_caller :
    (generatePasswordA []
        { password := "example-password", keyLen := 32, thread := 4
          memory := 65536, iterations := 0, hash := none, id := "argon2-id" }
        "c5-gen-salt" false).diags =
      [{ summary := "Argon 2 initialization error"
         detail := "Unable to generate hash, got error iterations out of range" }] ∧
    (CreateA
        { password := "example-password", keyLen := 32, thread := 4
          memory := 65536, iterations := 0, hash := none, id := "" }
        "c5-gen-salt" false).diags = [] ∧
    ((CreateA
        { password := "example-password", keyLen := 32, thread := 4
          memory := 65536, iterations := 0, hash := none, id := "" }
        "c5-gen-salt" false).written).isSome = true :=
  ⟨rfl, rfl, rfl⟩

/-- C6: with the invalid cost parameter `iterations = 0`, the option setup
fails and a diagnostic is recorded, but the code does not return: it proceeds
to call the CPU-bound hashing primitive (`hashCalls = 1`) with the remaining
profile-default settings and produces a digest, instead of failing before
any computation with no digest. -/
theorem invalid_params_still_hash :
    (generatePasswordA []
        { password := "example-password", keyLen := 32, thread := 4
          memory := 65536, iterations := 0, hash := none, id := "argon2-id" }
        "c6-gen-salt" false).hashCalls = 1 ∧
    (generatePasswordA []
        { password := "example-password", keyLen := 32, thread := 4
          memory := 65536, iterations := 0, hash := none, id := "argon2-id" }
        "c6-gen-salt" false).digest =
      some { variant := "argon2id", version := 19, memory := 2097152
             iterations := 1, parallelism := 4, keyLen := 32
             salt := "c6-gen-salt", password := "example-password" } :=
  ⟨rfl, rfl⟩

/-- C7: in the explicit-salt variant the digest is computed from the fixed
RFC9106 recommended profile and an engine-generated salt only: two records
that differ in the operator-supplied salt and in every cost-parameter field
but share the password produce the same digest, whose embedded salt is the
engine-generated one, not the operator salt. -/
theorem saltB_and_params_ignored :
    (generatePasswordB []
        { salt := "example-salt", password := "example-password", keyLen := 64
          time := 2, thread := 8, memory := 1024, iterations := 5
          hash := none, id := "argon2-id" }
        "c7-engine-salt" false).digest =
      some { variant := "argon2id", version := 19, memory := 2097152
             iterations := 1, parallelism := 4, keyLen := 32
             salt := "c7-engine-salt", password := "example-password" } ∧
    (generatePasswordB []
        { salt := "other-salt", password := "example-password", keyLen := 16
          time := 9, thread := 1, memory := 333, iterations := 7
          hash := none, id := "argon2-id" }
        "c7-engine-salt" false).digest =
    (generatePasswordB []
        { salt := "example-salt", password := "example-password", keyLen := 64
          time := 2, thread := 8, memory := 1024, iterations := 5
          hash := none, id := "argon2-id" }
        "c7-engine-salt" false).digest ∧
    "c7-engine-salt" ≠ "example-salt" :=
  ⟨rfl, rfl, by decide⟩

/-- C8: the identifier is immutable after creation: for every record written
by Create and every sequence of Read and Update events, the persisted
identifier stays equal to the one assigned at creation, namely "argon2-id". -/
theorem identifier_immutable (plan : ModelA) (rs : String) (pf : Bool)
    (r0 : ModelA) (ops : List OpA)
    (h : (CreateA plan rs pf).written = some r0) :
    (execA r0 ops).id = r0.id ∧ r0.id = "argon2-id" :=
  ⟨execA_id ops r0, CreateA_written_id plan rs pf r0 h⟩

/-- C8 witness: a concrete Create followed by a refresh, two updates and a
refresh; the identifier round-trips unchanged. -/
theorem identifier_immutable_witness :
    (CreateA c8Plan "c8-salt" false).written = some c8R0 ∧
    ((execA c8R0 c8Ops).id = c8R0.id ∧ c8R0.id = "argon2-id") :=
  ⟨by decide, identifier_immutable c8Plan "c8-salt" false c8R0 c8Ops (by decide)⟩

/-- C9: Read writes back exactly the prior record, every field unchanged, and
never invokes the hashing engine; both variants. -/
theorem read_roundtrip_exact (a : ModelA) (b : ModelB) :
    (ReadA a).written = some a ∧ (ReadA a).engineCalls = 0 ∧
    (ReadB b).written = some b ∧ (ReadB b).engineCalls = 0 :=
  ⟨rfl, rfl, rfl, rfl⟩

/-- C10: every record a Create call writes carries the constant identifier
"argon2-id", in both variants; hence any two created records share it. -/
theorem create_id_constant
    (planA : ModelA) (rsA : String) (pfA : Bool) (rA : ModelA)
    (planB : ModelB) (rsB : String) (pfB : Bool) (rB : ModelB)
    (hA : (CreateA planA rsA pfA).written = some rA)
    (hB : (CreateB planB rsB pfB).written = some rB) :
    rA.id = "argon2-id" ∧ rB.id = "argon2-id" ∧ rA.id = rB.id := by
  have h1 := CreateA_written_id planA rsA pfA rA hA
  have h2 := CreateB_written_id planB rsB pfB rB hB
  exact ⟨h1, h2, h1.trans h2.symm⟩

/-- C10 witness: two concrete Create calls with different secrets, salts and
parameters; both written records carry the identifier "argon2-id". -/
theorem create_id_constant_witness :
    ((CreateA c8Plan "c8-salt" false).written = some c8R0 ∧
     (CreateB c4PlanB "c10-s2" false).written = some c10RB) ∧
    (c8R0.id = "argon2-id" ∧ c10RB.id = "argon2-id" ∧ c8R0.id = c10RB.id) :=
  ⟨⟨by decide, by decide⟩,
   create_id_constant c8Plan "c8-salt" false c8R0 c4PlanB "c10-s2" false c10RB
     (by decide) (by decide)⟩
